import Mathlib

/-!
Verification of the YouTube MCP server's core logic
(`src/tools/google/youtube_tools.py` in Yuvadi29/Youtube_MCP_Server).

Modelling conventions:
- Python `str` values are modelled as `List Char` (the character sequence).
- `dict.get(key)` on a loosely-typed upstream item is modelled as an
  `Option (List Char)` field of a fixed-shape item structure: `none` when the
  key is absent (Python `None`), `some s` when present.
- Pydantic model construction is modelled by an explicit `validate` function:
  every field declared `Field(...)` (required, type `str`) must receive a
  `some` value, otherwise construction raises `ValidationError`; a keyword
  argument the call site never passes is modelled as `none`.
- The paginated upstream is modelled as the finite list of page responses the
  service would hand back in order; the aggregation `while` loop is a
  structural recursion over that list.  If the loop still wants another page
  after the modelled sequence is exhausted, the outcome is `starved`, which
  corresponds to no real behaviour and is excluded by the claims' hypotheses.
- A raised Python exception (pydantic `ValidationError`) is the `raised`
  outcome; a normal return is the `envelope` outcome.
-/

namespace YT

/-- One character of the regex character class `[a-zA-Z0-9_-]`
(lines 74-76 and 82 of youtube_tools.py). -/
def isIdChar (c : Char) : Bool :=
  c.isAlpha || c.isDigit || c == '_' || c == '-'

/-- Consume the literal `lit` from the front of `s`: `some` of the remainder
when `s` starts with `lit`, otherwise `none`. -/
def dropLit : List Char → List Char → Option (List Char)
  | s, [] => some s
  | [], _ :: _ => none
  | c :: s, p :: ps => if c = p then dropLit s ps else none

/-- Python `str.startswith(p)`. -/
def startsWithChars (s p : List Char) : Bool :=
  (dropLit s p).isSome

/-- Regex `^[a-zA-Z0-9_-]{11}` applied with `re.match` (line 82): the input has
at least 11 characters and its first 11 characters are id characters.  The
same test also realizes the capture group `([a-zA-Z0-9_-]{11})` of the URL
regex. -/
def bareIdShape (s : List Char) : Bool :=
  (s.take 11).length == 11 && (s.take 11).all isIdChar

/-- The URL regex of lines 74-76,
`(?:https?://)?(?:www\.)?(?:youtube\.com/watch\?v=|youtu\.be/)([a-zA-Z0-9_-]{11})`,
applied with `re.match`: anchored at the start of the input, not at its end.
The optional groups are consumed greedily; this is lossless because no literal
that can follow an optional group shares a first character with it, so a parse
that skips a present optional literal can never succeed. -/
def matchUrl (s : List Char) : Option (List Char) :=
  let s1 := match dropLit s ('h' :: 't' :: 't' :: 'p' :: 's' :: ':' :: '/' :: '/' :: []) with
    | some r => r
    | none => match dropLit s ('h' :: 't' :: 't' :: 'p' :: ':' :: '/' :: '/' :: []) with
      | some r => r
      | none => s
  let s2 := match dropLit s1 ('w' :: 'w' :: 'w' :: '.' :: []) with
    | some r => r
    | none => s1
  let rest := match dropLit s2 ('y' :: 'o' :: 'u' :: 't' :: 'u' :: 'b' :: 'e' :: '.' :: 'c' :: 'o' :: 'm' :: '/' :: 'w' :: 'a' :: 't' :: 'c' :: 'h' :: '?' :: 'v' :: '=' :: []) with
    | some r => some r
    | none => dropLit s2 ('y' :: 'o' :: 'u' :: 't' :: 'u' :: '.' :: 'b' :: 'e' :: '/' :: [])
  match rest with
  | none => none
  | some r => if bareIdShape r then some (r.take 11) else none

/-- `extreact_video_id` (lines 63-86): try the URL regex first and return its
11-character capture; otherwise, if the start-anchored bare-id regex matches,
return the input string itself unchanged; otherwise `None`. -/
def extreact_video_id (input_str : List Char) : Option (List Char) :=
  match matchUrl input_str with
  | some v => some v
  | none => if bareIdShape input_str then some input_str else none

/-- The id-preprocessing step of `get_video_info` (lines 340-343): only when
`len(video_ids) == 1` is the argument passed through `extreact_video_id`, and
the error string is returned when extraction gives `None`; every other
argument is used as-is. -/
def get_video_info_ids (video_ids : List Char) : Except (List Char) (List Char) :=
  if video_ids.length = 1 then
    match extreact_video_id video_ids with
    | some v => Except.ok v
    | none => Except.error ("Error: Invalid Video ID or Url".data)
  else Except.ok video_ids

/-- The upstream request `get_channel_info` issues: keyed by channel id
(`id=channel_id`) or by handle (`forHandle=channel_id`). -/
inductive ChannelLookup where
  | byId (channel_id : List Char)
  | byHandle (channel_id : List Char)
  deriving DecidableEq

/-- The routing of `get_channel_info` (lines 130-139): `startswith("UC")`
gives an id-keyed lookup, otherwise `startswith("@")` gives a handle-keyed
lookup, otherwise the string "Invalid Channel ID" is returned before any
upstream request is built. -/
def get_channel_info_route (channel_id : List Char) : Except (List Char) ChannelLookup :=
  if startsWithChars channel_id ('U' :: 'C' :: []) then
    Except.ok (ChannelLookup.byId channel_id)
  else if startsWithChars channel_id ('@' :: []) then
    Except.ok (ChannelLookup.byHandle channel_id)
  else
    Except.error ("Invalid Channel ID".data)

/-- Pydantic model `ChannelInfo` (lines 21-29): eight fields, every one
declared `Field(...)`, i.e. required, of type `str`. -/
structure ChannelInfo where
  channel_id : List Char
  channel_title : List Char
  description : List Char
  published_at : List Char
  country : List Char
  view_count : List Char
  subscriber_count : List Char
  video_count : List Char
  deriving DecidableEq

/-- Pydantic construction `ChannelInfo(...)`: each required `str` field must
be bound to an actual string; a field bound to Python `None` (a missed
`dict.get`) or not passed at all raises `ValidationError`. -/
def ChannelInfo.validate (channel_id channel_title description published_at country view_count subscriber_count video_count : Option (List Char)) : Except (List Char) ChannelInfo :=
  match channel_id, channel_title, description, published_at, country, view_count, subscriber_count, video_count with
  | some a, some b, some c, some d, some e, some f, some g, some h =>
    Except.ok ⟨a, b, c, d, e, f, g, h⟩
  | _, _, _, _, _, _, _, _ => Except.error ("ValidationError".data)

/-- A raw channel search item as `search_channel` reads it (lines 194-198):
`item["id"].get("channelId")`, `item["snippet"].get("title")`,
`item["snippet"].get("description")`, `item["snippet"].get("publishedAt")`. -/
structure ChannelSearchItem where
  idChannelId : Option (List Char)
  snippetTitle : Option (List Char)
  snippetDescription : Option (List Char)
  snippetPublishedAt : Option (List Char)
  deriving DecidableEq

/-- The per-item normalization of `search_channel` (lines 194-204): the
`ChannelInfo(...)` call passes only four of the eight required fields;
`country`, `view_count`, `subscriber_count` and `video_count` are never
passed. -/
def normalizeChannelSearchItem (item : ChannelSearchItem) : Except (List Char) ChannelInfo :=
  ChannelInfo.validate item.idChannelId item.snippetTitle item.snippetDescription
    item.snippetPublishedAt none none none none

/-- Pydantic model `PlaylistInfo` (lines 8-13): five required `str` fields. -/
structure PlaylistInfo where
  playlist_id : List Char
  playlist_title : List Char
  channel_id : List Char
  description : List Char
  published_at : List Char
  deriving DecidableEq

/-- Pydantic construction `PlaylistInfo(...)`. -/
def PlaylistInfo.validate (playlist_id playlist_title channel_id description published_at : Option (List Char)) : Except (List Char) PlaylistInfo :=
  match playlist_id, playlist_title, channel_id, description, published_at with
  | some a, some b, some c, some d, some e => Except.ok ⟨a, b, c, d, e⟩
  | _, _, _, _, _ => Except.error ("ValidationError".data)

/-- A raw playlist search item as `search_playlist` reads it (lines 250-255). -/
structure PlaylistSearchItem where
  idPlaylistId : Option (List Char)
  snippetTitle : Option (List Char)
  snippetChannelId : Option (List Char)
  snippetDescription : Option (List Char)
  snippetPublishedAt : Option (List Char)
  deriving DecidableEq

/-- The per-item normalization of `search_playlist` (lines 250-262): all five
required fields are passed (each possibly `None`). -/
def normalizePlaylistSearchItem (item : PlaylistSearchItem) : Except (List Char) PlaylistInfo :=
  PlaylistInfo.validate item.idPlaylistId item.snippetTitle item.snippetChannelId
    item.snippetDescription item.snippetPublishedAt

/-- One upstream page response: `response["items"]`,
`response["pageInfo"]["totalResults"]`, `response.get("nextPageToken")`. -/
structure Page (α : Type) where
  items : List α
  totalResults : Int
  nextPageToken : Option (List Char)
  deriving DecidableEq

/-- Python truthiness of `next_page_token` in `if not next_page_token`
(line 210): falsy when absent (`None`) or the empty string. -/
def tokenFalsy : Option (List Char) → Bool
  | none => true
  | some t => t.isEmpty

/-- Outcome of one aggregation call, instrumented with the number of upstream
requests issued: a normal return carrying the envelope fields, a raised
exception, or (model artifact) the loop wanting a page beyond those the
modelled upstream sequence provides. -/
inductive AggOutcome (ε β : Type) where
  | envelope (total_results : Int) (records : List β) (requests : Nat)
  | raised (e : ε) (requests : Nat)
  | starved (requests : Nat)
  deriving DecidableEq

/-- Number of upstream requests the call issued. -/
def AggOutcome.requests : AggOutcome ε β → Nat
  | .envelope _ _ r => r
  | .raised _ r => r
  | .starved r => r

/-- Whether the outcome is the model-artifact `starved` case. -/
def AggOutcome.isStarved : AggOutcome ε β → Bool
  | .starved _ => true
  | _ => false

/-- The `for item in response["items"]` body (lines 194-205): each raw item is
normalized and appended in order; a raised `ValidationError` aborts the whole
call at the first offending item. -/
def normalizeItems (norm : α → Except ε β) : List α → Except ε (List β)
  | [] => Except.ok []
  | a :: as =>
    match norm a with
    | Except.error e => Except.error e
    | Except.ok b =>
      match normalizeItems norm as with
      | Except.error e => Except.error e
      | Except.ok bs => Except.ok (b :: bs)

/-- `current_max = min(50, max_results - len(lst))` (line 179): the page size
requested on the iteration entered with `acc` records accumulated. -/
def requestedSize (max_results : Int) (acc : Nat) : Int :=
  min 50 (max_results - (acc : Int))

/-- The shared aggregation `while` loop (lines 174-211 of `search_channel`;
`search_playlist`, `search_videos` and `get_video_info` repeat it verbatim):
while `len(lst) < max_results`, request the next page, normalize and append
its items, capture `total_results` from the page, and break when the page's
next-page token is falsy.  `pages` is the sequence of responses the upstream
returns; the recursion consumes it in order. -/
def aggLoop (norm : α → Except ε β) (max_results : Int) :
    List (Page α) → List β → Int → Nat → AggOutcome ε β
  | [], lst, total_results, reqs =>
    if (lst.length : Int) < max_results then AggOutcome.starved reqs
    else AggOutcome.envelope total_results lst reqs
  | p :: rest, lst, total_results, reqs =>
    if (lst.length : Int) < max_results then
      match normalizeItems norm p.items with
      | Except.error e => AggOutcome.raised e (reqs + 1)
      | Except.ok recs =>
        if tokenFalsy p.nextPageToken then
          AggOutcome.envelope p.totalResults (lst ++ recs) (reqs + 1)
        else
          aggLoop norm max_results rest (lst ++ recs) p.totalResults (reqs + 1)
    else AggOutcome.envelope total_results lst reqs

/-- One search-family aggregation call started from the initial state
`lst = []`, `total_results = 0` (lines 174-176). -/
def searchAgg (norm : α → Except ε β) (max_results : Int) (pages : List (Page α)) :
    AggOutcome ε β :=
  aggLoop norm max_results pages [] 0 0

/-- `search_channel` (lines 156-215) with its concrete normalizer. -/
def search_channel (max_results : Int) (pages : List (Page ChannelSearchItem)) :
    AggOutcome (List Char) ChannelInfo :=
  searchAgg normalizeChannelSearchItem max_results pages

/-- `search_playlist` (lines 217-273) with its concrete normalizer. -/
def search_playlist (max_results : Int) (pages : List (Page PlaylistSearchItem)) :
    AggOutcome (List Char) PlaylistInfo :=
  searchAgg normalizePlaylistSearchItem max_results pages

/-- Each page of the sequence carries at most the page size the loop requests
at that point (`current_max` of line 179), given `acc` records already
accumulated when the first of these pages is requested. -/
def pagesFitB (max_results : Int) : Nat → List (Page α) → Bool
  | _, [] => true
  | acc, p :: rest =>
    decide ((p.items.length : Int) ≤ requestedSize max_results acc) &&
      pagesFitB max_results (acc + p.items.length) rest

/-! Helper lemmas about the loop embedding. -/

/-- Normalizing a page's item list record-by-record keeps its length when no
item raises. -/
theorem normalizeItems_length (norm : α → Except ε β) :
    ∀ (items : List α) (recs : List β),
      normalizeItems norm items = Except.ok recs → recs.length = items.length := by
  intro items
  induction items with
  | nil =>
    intro recs h
    simp only [normalizeItems] at h
    injection h with h2
    subst h2
    rfl
  | cons a as ih =>
    intro recs h
    simp only [normalizeItems] at h
    split at h
    · cases h
    · split at h
      · cases h
      next b bs hbs =>
        injection h with h2
        subst h2
        simp [ih bs hbs]

/-- When the loop guard `len(lst) < max_results` already fails, the loop body
never runs: the call returns the current accumulator at once. -/
theorem aggLoop_not_lt (norm : α → Except ε β) (max_results : Int)
    (pages : List (Page α)) (lst : List β) (total_results : Int) (reqs : Nat)
    (h : ¬ ((lst.length : Int) < max_results)) :
    aggLoop norm max_results pages lst total_results reqs =
      AggOutcome.envelope total_results lst reqs := by
  cases pages <;> simp [aggLoop, h]

/-- The instrumented request counter never decreases. -/
theorem aggLoop_reqs_le (norm : α → Except ε β) (max_results : Int) :
    ∀ (pages : List (Page α)) (lst : List β) (total_results : Int) (reqs : Nat),
      reqs ≤ (aggLoop norm max_results pages lst total_results reqs).requests := by
  intro pages
  induction pages with
  | nil =>
    intro lst total reqs
    simp only [aggLoop]
    split <;> simp [AggOutcome.requests]
  | cons p rest ih =>
    intro lst total reqs
    simp only [aggLoop]
    split
    · split
      · simp [AggOutcome.requests]
      · split
        · simp [AggOutcome.requests]
        · exact le_trans (Nat.le_succ reqs) (ih _ _ _)
    · simp [AggOutcome.requests]

/-- If some provided page carries a falsy next-page token, the loop never
consumes the whole page sequence still wanting more: it stops (returns or
raises) no later than the first such page. -/
theorem aggLoop_not_starved (norm : α → Except ε β) (max_results : Int) :
    ∀ (pages : List (Page α)) (lst : List β) (total_results : Int) (reqs : Nat),
      pages.any (fun p => tokenFalsy p.nextPageToken) = true →
      (aggLoop norm max_results pages lst total_results reqs).isStarved = false := by
  intro pages
  induction pages with
  | nil =>
    intro lst total reqs h
    simp at h
  | cons p rest ih =>
    intro lst total reqs h
    simp only [List.any_cons, Bool.or_eq_true] at h
    simp only [aggLoop]
    split
    · split
      · simp [AggOutcome.isStarved]
      · split
        · simp [AggOutcome.isStarved]
        next htok =>
          apply ih
          rcases h with h | h
          · exact absurd h htok
          · exact h
    · simp [AggOutcome.isStarved]

/-- Loop invariant: if the accumulator is within `max_results` and every page
fits the requested page size, any envelope the loop returns carries at most
`max_results` records. -/
theorem aggLoop_length_le (norm : α → Except ε β) (max_results : Int) :
    ∀ (pages : List (Page α)) (lst : List β) (total_results : Int) (reqs : Nat),
      (lst.length : Int) ≤ max_results →
      pagesFitB max_results lst.length pages = true →
      ∀ (t : Int) (recs : List β) (r : Nat),
        aggLoop norm max_results pages lst total_results reqs = AggOutcome.envelope t recs r →
        (recs.length : Int) ≤ max_results := by
  intro pages
  induction pages with
  | nil =>
    intro lst total reqs hle hfit t recs r h
    simp only [aggLoop] at h
    split at h
    · cases h
    · injection h with h1 h2 h3
      subst h2
      exact hle
  | cons p rest ih =>
    intro lst total reqs hle hfit t recs r h
    simp only [pagesFitB, Bool.and_eq_true, decide_eq_true_eq] at hfit
    obtain ⟨hp, hrest⟩ := hfit
    simp only [aggLoop] at h
    split at h
    next hlt =>
      split at h
      · cases h
      next recs0 hnorm =>
        have hlen := normalizeItems_length norm p.items recs0 hnorm
        have hsize : (p.items.length : Int) ≤ max_results - (lst.length : Int) :=
          le_trans hp (min_le_right _ _)
        have hlst2 : (((lst ++ recs0).length : Nat) : Int) ≤ max_results := by
          simp only [List.length_append, hlen]
          push_cast
          omega
        split at h
        · injection h with h1 h2 h3
          subst h2
          exact hlst2
        · refine ih (lst ++ recs0) p.totalResults (reqs + 1) hlst2 ?_ t recs r h
          simpa [List.length_append, hlen] using hrest
    · injection h with h1 h2 h3
      subst h2
      exact hle

/-- The `total_results` an envelope carries is exactly the `totalResults`
reported by the last page the loop consumed (the initial value when no page
was consumed). -/
theorem aggLoop_total_eq (norm : α → Except ε β) (max_results : Int) :
    ∀ (pages : List (Page α)) (lst : List β) (total_results : Int) (reqs : Nat)
      (t : Int) (recs : List β) (r : Nat),
      aggLoop norm max_results pages lst total_results reqs = AggOutcome.envelope t recs r →
      t = ((pages.take (r - reqs)).map Page.totalResults).getLastD total_results := by
  intro pages
  induction pages with
  | nil =>
    intro lst total reqs t recs r h
    simp only [aggLoop] at h
    split at h
    · cases h
    · injection h with h1 h2 h3
      subst h3
      simpa using h1.symm
  | cons p rest ih =>
    intro lst total reqs t recs r h
    simp only [aggLoop] at h
    split at h
    · split at h
      · cases h
      next recs0 hnorm =>
        split at h
        · injection h with h1 h2 h3
          subst h3
          have hr : reqs + 1 - reqs = 1 := by omega
          rw [hr, List.take_succ_cons, List.take_zero, List.map_cons, List.map_nil,
            List.getLastD_cons, List.getLastD_nil]
          exact h1.symm
        · have hge : reqs + 1 ≤ r := by
            have hh := aggLoop_reqs_le norm max_results rest (lst ++ recs0) p.totalResults (reqs + 1)
            rw [h] at hh
            simpa [AggOutcome.requests] using hh
          have hr : r - reqs = (r - (reqs + 1)) + 1 := by omega
          rw [hr, List.take_succ_cons, List.map_cons, List.getLastD_cons]
          exact ih (lst ++ recs0) p.totalResults (reqs + 1) t recs r h
    · injection h with h1 h2 h3
      subst h3
      simpa using h1.symm

/-- Consuming a two-or-more-character literal from a one-character string
always fails. -/
theorem dropLit_singleton (c p q : Char) (ps : List Char) :
    dropLit [c] (p :: q :: ps) = none := by
  simp only [dropLit]
  split <;> rfl

/-- The URL regex never matches a one-character input. -/
theorem matchUrl_singleton (c : Char) : matchUrl [c] = none := by
  simp [matchUrl, dropLit_singleton]

/-- A one-character input has no bare-id shape either, so the extractor
returns `None` on it. -/
theorem extreact_video_id_singleton (c : Char) : extreact_video_id [c] = none := by
  have hb : bareIdShape [c] = false := by
    simp [bareIdShape, List.length_take]
  simp [extreact_video_id, matchUrl_singleton, hb]

/-- A string that starts with "@" cannot start with "UC". -/
theorem startsWith_at_not_uc (s : List Char) (h : startsWithChars s ['@'] = true) :
    startsWithChars s ['U', 'C'] = false := by
  cases s with
  | nil => simp [startsWithChars, dropLit] at h
  | cons c cs =>
    simp only [startsWithChars, dropLit] at h ⊢
    by_cases hc : c = '@'
    · subst hc
      rw [if_neg (by decide)]
      rfl
    · rw [if_neg hc] at h
      simp at h

/-! The claims. -/

/-- C1: for every search-family aggregation call with `max_results > 50` and
every upstream page sequence in which each page returns at most the requested
page size, the loop stops by the first page whose next-page token is falsy
(it never runs past the provided sequence), and any returned envelope holds
at most `max_results` records, even when fewer were accumulated. -/
theorem search_family_bound_and_cursor_stop (norm : α → Except ε β) (max_results : Int)
    (pages : List (Page α)) (h50 : 50 < max_results)
    (hfit : pagesFitB max_results 0 pages = true)
    (hstop : pages.any (fun p => tokenFalsy p.nextPageToken) = true) :
    (searchAgg norm max_results pages).isStarved = false ∧
    ∀ (t : Int) (recs : List β) (r : Nat),
      searchAgg norm max_results pages = AggOutcome.envelope t recs r →
      (recs.length : Int) ≤ max_results := by
  constructor
  · exact aggLoop_not_starved norm max_results pages [] 0 0 hstop
  · intro t recs r h
    refine aggLoop_length_le norm max_results pages [] 0 0 ?_ ?_ t recs r h
    · simp only [List.length_nil, Nat.cast_zero]
      omega
    · simpa using hfit

/-- C1 witness: 60 requested, pages of 50 and 10 with the second page
cursorless. -/
theorem search_family_bound_and_cursor_stop_witness :
    (searchAgg (fun u : Unit => (Except.ok u : Except Unit Unit)) 60
      [⟨List.replicate 50 (), 99, some ['A']⟩, ⟨List.replicate 10 (), 99, none⟩]).isStarved = false ∧
    ((List.replicate 60 () : List Unit).length : Int) ≤ 60 :=
  ⟨(search_family_bound_and_cursor_stop (fun u : Unit => (Except.ok u : Except Unit Unit)) 60
      [⟨List.replicate 50 (), 99, some ['A']⟩, ⟨List.replicate 10 (), 99, none⟩]
      (by decide) (by decide) (by decide)).1,
   (search_family_bound_and_cursor_stop (fun u : Unit => (Except.ok u : Except Unit Unit)) 60
      [⟨List.replicate 50 (), 99, some ['A']⟩, ⟨List.replicate 10 (), 99, none⟩]
      (by decide) (by decide) (by decide)).2 99 (List.replicate 60 ()) 2 (by decide)⟩

/-- C2 counterexample: `search_playlist` with `max_results = 50` (≤ 50) issues
two upstream requests when the first page returns only 10 items but carries a
next-page token, refuting "at most one page request for every upstream
response sequence". -/
theorem search_playlist_two_requests_with_small_max :
    (search_playlist 50
      [⟨List.replicate 10 ⟨some ['P'], some ['t'], some ['c'], some ['d'], some ['q']⟩, 100, some ['T']⟩,
       ⟨[], 100, none⟩]).requests = 2 := by decide

/-- C2 amended: for `max_results ≤ 50` the aggregator issues at most one page
request provided the first page either returns the full requested page size
`min(50, max_results)` or carries a falsy next-page token; a first page that
underfills while carrying a token leads to further requests. -/
theorem small_max_results_single_request (norm : α → Except ε β) (max_results : Int)
    (p : Page α) (rest : List (Page α)) (hmr : max_results ≤ 50)
    (hp : requestedSize max_results 0 ≤ (p.items.length : Int) ∨ tokenFalsy p.nextPageToken = true) :
    (searchAgg norm max_results (p :: rest)).requests ≤ 1 := by
  simp only [searchAgg, aggLoop]
  split
  next hlt =>
    split
    · simp [AggOutcome.requests]
    next recs hn =>
      split
      · simp [AggOutcome.requests]
      next htok =>
        rcases hp with hp | hp
        · have hlen := normalizeItems_length norm p.items recs hn
          have hmin : requestedSize max_results 0 = max_results := by
            simp only [requestedSize, Nat.cast_zero, Int.sub_zero]
            exact min_eq_right hmr
          have hge : ¬ ((((([] : List β) ++ recs).length : Nat) : Int) < max_results) := by
            simp only [List.nil_append, hlen]
            rw [hmin] at hp
            omega
          rw [aggLoop_not_lt norm max_results rest ([] ++ recs) p.totalResults (0 + 1) hge]
          simp [AggOutcome.requests]
        · exact absurd hp htok
  next hlt =>
    simp [AggOutcome.requests]

/-- C2 amended witness: a full first page of 30 with `max_results = 30`. -/
theorem small_max_results_single_request_witness :
    (searchAgg (fun u : Unit => (Except.ok u : Except Unit Unit)) 30
      ((⟨List.replicate 30 (), 7, some ['A']⟩ : Page Unit) :: [])).requests ≤ 1 :=
  small_max_results_single_request (fun u : Unit => (Except.ok u : Except Unit Unit)) 30
    ⟨List.replicate 30 (), 7, some ['A']⟩ [] (by decide) (Or.inl (by decide))

/-- C3 counterexample: a zero-item first page that carries a next-page token
does not terminate the aggregation: a second upstream request is made. -/
theorem search_playlist_empty_first_page_extra_request :
    (search_playlist 50 [⟨[], 9, some ['T']⟩, ⟨[], 9, none⟩]).requests = 2 := by decide

/-- C3 amended: when the very first page contains zero items and carries no
next-page token, the aggregator stops after that single request and returns
an empty record sequence together with the total-results figure of that
page. -/
theorem empty_first_page_no_cursor_terminates (norm : α → Except ε β) (max_results : Int)
    (total : Int) (rest : List (Page α)) (h : 0 < max_results) :
    searchAgg norm max_results ((⟨[], total, none⟩ : Page α) :: rest) =
      AggOutcome.envelope total [] 1 := by
  simp [searchAgg, aggLoop, normalizeItems, tokenFalsy, h]

/-- C3 amended witness. -/
theorem empty_first_page_no_cursor_terminates_witness :
    searchAgg (fun u : Unit => (Except.ok u : Except Unit Unit)) 50
      ((⟨[], 3, none⟩ : Page Unit) :: []) = AggOutcome.envelope 3 [] 1 :=
  empty_first_page_no_cursor_terminates (fun u : Unit => (Except.ok u : Except Unit Unit)) 50 3 []
    (by decide)

/-- C4: evaluating `search_channel` on the 50/50/12-page scenario with
`max_results = 200`: instead of an envelope of 112 records after 3 requests,
the call raises pydantic `ValidationError` on the first item of the first
page, because the `ChannelInfo(...)` call supplies only four of the eight
required fields. -/
theorem search_channel_scenario_raises :
    search_channel 200
      [⟨List.replicate 50 ⟨some ['c'], some ['t'], some ['d'], some ['q']⟩, 500, some ['A']⟩,
       ⟨List.replicate 50 ⟨some ['c'], some ['t'], some ['d'], some ['q']⟩, 500, some ['B']⟩,
       ⟨List.replicate 12 ⟨some ['c'], some ['t'], some ['d'], some ['q']⟩, 500, none⟩] =
      AggOutcome.raised ("ValidationError".data) 1 := by decide

/-- C5: a channel search item whose snippet lacks the description key does
not normalize to a record with an empty-string description: the
`ChannelInfo(...)` construction raises `ValidationError` (its `description`
field is required `str` yet receives Python `None`, and its four statistics
fields are never supplied at this call site at all). -/
theorem channel_item_missing_description_raises :
    normalizeChannelSearchItem ⟨some ['c'], some ['t'], none, some ['q']⟩ =
      Except.error ("ValidationError".data) := rfl

/-- C6 counterexample: an input that is not URL-shaped and is not an entire
11-character id (it has length 14) is nonetheless accepted by the bare-id
branch, which returns the whole garbage-suffixed input. -/
theorem extreact_video_id_garbage_accepted :
    extreact_video_id ("abcdefghijk???".data) = some ("abcdefghijk???".data) ∧
    ("abcdefghijk???".data).length = 14 := by decide

/-- C6 amended: the bare-id check of `extreact_video_id` is anchored only at
the start: with no URL match, an input whose first 11 characters are id
characters is returned in its entirety (garbage suffix included), and the
not-found signal is returned exactly when the input has no such 11-character
prefix. -/
theorem extreact_video_id_bare_branch (s : List Char) (hurl : matchUrl s = none) :
    (bareIdShape s = true → extreact_video_id s = some s) ∧
    (bareIdShape s = false → extreact_video_id s = none) := by
  constructor <;> intro hb <;> simp [extreact_video_id, hurl, hb]

/-- C6 amended witness. -/
theorem extreact_video_id_bare_branch_witness :
    extreact_video_id ("hello".data) = none ∧
    extreact_video_id ("dQw4w9WgXcQ".data) = some ("dQw4w9WgXcQ".data) :=
  ⟨(extreact_video_id_bare_branch ("hello".data) (by decide)).2 (by decide),
   (extreact_video_id_bare_branch ("dQw4w9WgXcQ".data) (by decide)).1 (by decide)⟩

/-- C7 counterexample: a single bare string of length 3 that the Identifier
Extractor rejects is not passed through it by `get_video_info`: the call
proceeds with the string as-is instead of returning the error string. -/
theorem get_video_info_ids_bare_string_not_extracted :
    get_video_info_ids ("???".data) = Except.ok ("???".data) ∧
    extreact_video_id ("???".data) = none := ⟨rfl, by decide⟩

/-- C7 amended: `get_video_info` passes its argument through the Identifier
Extractor only when the argument has length exactly 1, in which case
extraction always fails and the error string is always returned; every other
argument, single bare ids and URLs included, bypasses the extractor
entirely. -/
theorem get_video_info_ids_spec (s : List Char) :
    (s.length = 1 → get_video_info_ids s = Except.error ("Error: Invalid Video ID or Url".data)) ∧
    (s.length ≠ 1 → get_video_info_ids s = Except.ok s) := by
  constructor
  · intro h1
    obtain ⟨c, rfl⟩ := List.length_eq_one.mp h1
    simp [get_video_info_ids, extreact_video_id_singleton]
  · intro h1
    simp [get_video_info_ids, h1]

/-- C7 amended witness. -/
theorem get_video_info_ids_spec_witness :
    get_video_info_ids ['x'] = Except.error ("Error: Invalid Video ID or Url".data) ∧
    get_video_info_ids ("abc".data) = Except.ok ("abc".data) :=
  ⟨(get_video_info_ids_spec ['x']).1 (by decide),
   (get_video_info_ids_spec ("abc".data)).2 (by decide)⟩

/-- C8: `get_channel_info` issues an id-keyed lookup when the argument starts
with "UC", a handle-keyed lookup when it starts with "@", and otherwise
returns the error string "Invalid Channel ID" without building any upstream
request. -/
theorem get_channel_info_routing (s : List Char) :
    (startsWithChars s ['U', 'C'] = true →
      get_channel_info_route s = Except.ok (ChannelLookup.byId s)) ∧
    (startsWithChars s ['@'] = true →
      get_channel_info_route s = Except.ok (ChannelLookup.byHandle s)) ∧
    (startsWithChars s ['U', 'C'] = false → startsWithChars s ['@'] = false →
      get_channel_info_route s = Except.error ("Invalid Channel ID".data)) := by
  refine ⟨fun h => by simp [get_channel_info_route, h], fun h => ?_,
    fun h1 h2 => by simp [get_channel_info_route, h1, h2]⟩
  have huc := startsWith_at_not_uc s h
  simp [get_channel_info_route, huc, h]

/-- C8 witness: the three scenario inputs of the spec. -/
theorem get_channel_info_routing_witness :
    get_channel_info_route ("UCabc".data) = Except.ok (ChannelLookup.byId ("UCabc".data)) ∧
    get_channel_info_route ("@somehandle".data) = Except.ok (ChannelLookup.byHandle ("@somehandle".data)) ∧
    get_channel_info_route ("bad".data) = Except.error ("Invalid Channel ID".data) :=
  ⟨(get_channel_info_routing ("UCabc".data)).1 (by decide),
   (get_channel_info_routing ("@somehandle".data)).2.1 (by decide),
   (get_channel_info_routing ("bad".data)).2.2 (by decide) (by decide)⟩

/-- C9: in any returned envelope, `total_results` is the `totalResults`
figure reported by the last upstream page the loop consumed (0 only when no
page was consumed at all), carried through unchanged rather than recomputed
from the accumulated records. -/
theorem envelope_total_from_last_consumed_page (norm : α → Except ε β) (max_results : Int)
    (pages : List (Page α)) (t : Int) (recs : List β) (r : Nat)
    (h : searchAgg norm max_results pages = AggOutcome.envelope t recs r) :
    t = ((pages.take r).map Page.totalResults).getLastD 0 := by
  have hh := aggLoop_total_eq norm max_results pages [] 0 0 t recs r h
  simpa using hh

/-- C9 witness: one consumed page reporting 7 total results while holding a
single record. -/
theorem envelope_total_from_last_consumed_page_witness :
    (7 : Int) = ((([(⟨[()], 7, none⟩ : Page Unit)]).take 1).map Page.totalResults).getLastD 0 :=
  envelope_total_from_last_consumed_page (fun u : Unit => (Except.ok u : Except Unit Unit)) 50
    [⟨[()], 7, none⟩] 7 [()] 1 (by decide)

/-- C10: a search-family call invoked with `max_results ≤ 0` fails the loop
guard immediately: no upstream request is issued and the envelope carries an
empty record list with `total_results = 0`. -/
theorem nonpositive_max_results_no_request (norm : α → Except ε β) (max_results : Int)
    (pages : List (Page α)) (h : max_results ≤ 0) :
    searchAgg norm max_results pages = AggOutcome.envelope 0 [] 0 := by
  have hnlt : ¬ ((([] : List β).length : Int) < max_results) := by
    simp only [List.length_nil, Nat.cast_zero]
    omega
  simpa [searchAgg] using aggLoop_not_lt norm max_results pages [] 0 0 hnlt

/-- C10 witness. -/
theorem nonpositive_max_results_no_request_witness :
    searchAgg (fun u : Unit => (Except.ok u : Except Unit Unit)) 0
      [(⟨[()], 5, none⟩ : Page Unit)] = AggOutcome.envelope 0 [] 0 :=
  nonpositive_max_results_no_request (fun u : Unit => (Except.ok u : Except Unit Unit)) 0
    [⟨[()], 5, none⟩] (by decide)

end YT
